import Mathlib

/-!
Shallow embedding of the support-ticket classification engine
(`backend/tickets/llm_service.py`, HTTP endpoint in `backend/tickets/views.py`).

The Python module compiles seven case-insensitive regular expressions of the
shape `\b(term1|term2|...)\b`, where every term is a sequence of literal words
separated by `\s*` (zero or more whitespace) or `\s+` (one or more whitespace).
We model each term as a list of `Piece`s and `re.search` as a scan over the
lower-cased character list, checking the `\b` word boundary on both sides.
Greedy whitespace consumption is equivalent to backtracking search here
because every literal piece starts with a non-whitespace character.
-/

/-- One piece of a regex alternative: a literal word (stored lower-case),
`\s*`, or `\s+`. -/
inductive Piece
  | lit (s : String)
  | ws0
  | ws1
deriving DecidableEq

/-- `\w` of Python `re` restricted to ASCII: letters, digits, underscore. -/
def isWordChar (c : Char) : Bool :=
  c.isAlpha || c.isDigit || c = '_'

/-- Match a sequence of pieces at the head of `cs`; return the rest on success. -/
def matchPieces : List Piece → List Char → Option (List Char)
  | [], cs => some cs
  | .lit s :: ps, cs =>
      let l := s.toList
      if cs.take l.length = l then matchPieces ps (cs.drop l.length) else none
  | .ws0 :: ps, cs => matchPieces ps (cs.dropWhile Char.isWhitespace)
  | .ws1 :: ps, cs =>
      match cs with
      | [] => none
      | c :: rest =>
          if c.isWhitespace then matchPieces ps (rest.dropWhile Char.isWhitespace)
          else none

/-- The closing `\b`: the rest of the input must not continue the word. -/
def boundaryAfter : List Char → Bool
  | [] => true
  | c :: _ => !isWordChar c

/-- Does one alternative match at this exact position (with its closing `\b`)? -/
def altMatchesAt (alt : List Piece) (cs : List Char) : Bool :=
  match matchPieces alt cs with
  | some rest => boundaryAfter rest
  | none => false

/-- Scan every position; `bnd` records whether the opening `\b` holds here
(start of string, or previous character was not a word character). -/
def searchAux (g : List (List Piece)) : Bool → List Char → Bool
  | _, [] => false
  | bnd, c :: rest =>
      (bnd && g.any fun alt => altMatchesAt alt (c :: rest)) ||
        searchAux g (!isWordChar c) rest

/-- `re.search` with `re.IGNORECASE` of a `\b(alt|...)\b` pattern group. -/
def searchGroup (g : List (List Piece)) (s : String) : Bool :=
  searchAux g true (s.toList.map Char.toLower)

/-- `TECHNICAL_KEYWORDS` (llm_service.py line 39). -/
def TECHNICAL_KEYWORDS : List (List Piece) :=
  [[.lit "api"], [.lit "webhook"], [.lit "endpoint"], [.lit "500"], [.lit "502"],
   [.lit "503"], [.lit "server", .ws0, .lit "error"], [.lit "integration"],
   [.lit "bug"], [.lit "crash"], [.lit "timeout"], [.lit "logs"]]

/-- `ACCOUNT_KEYWORDS` (llm_service.py line 43). -/
def ACCOUNT_KEYWORDS : List (List Piece) :=
  [[.lit "login"], [.lit "log", .ws0, .lit "in"], [.lit "password"],
   [.lit "reset", .ws0, .lit "password"], [.lit "unlock"], [.lit "account"],
   [.lit "permission"], [.lit "profile"], [.lit "access"],
   [.lit "locked", .ws0, .lit "out"]]

/-- `BILLING_KEYWORDS` (llm_service.py line 47). -/
def BILLING_KEYWORDS : List (List Piece) :=
  [[.lit "charge"], [.lit "charged"], [.lit "refund"], [.lit "invoice"],
   [.lit "payment"], [.lit "subscription"], [.lit "billed"], [.lit "billing"],
   [.lit "duplicate", .ws0, .lit "charge"]]

/-- `OUTAGE_OR_DOWN_KEYWORDS` (llm_service.py line 52). -/
def OUTAGE_OR_DOWN_KEYWORDS : List (List Piece) :=
  [[.lit "outage"], [.lit "system", .ws0, .lit "down"],
   [.lit "platform", .ws0, .lit "down"], [.lit "been", .ws1, .lit "down"],
   [.lit "is", .ws1, .lit "down"], [.lit "full", .ws1, .lit "outage"],
   [.lit "data", .ws0, .lit "loss"], [.lit "breach"]]

/-- `CRITICAL_PRIORITY_KEYWORDS` (llm_service.py line 57). -/
def CRITICAL_PRIORITY_KEYWORDS : List (List Piece) :=
  [[.lit "outage"], [.lit "down", .ws0, .lit "for"],
   [.lit "system", .ws0, .lit "down"], [.lit "platform", .ws0, .lit "down"],
   [.lit "been", .ws1, .lit "down"], [.lit "full", .ws1, .lit "outage"],
   [.lit "data", .ws0, .lit "loss"], [.lit "breach"],
   [.lit "security", .ws0, .lit "incident"], [.lit "urgent"], [.lit "restore"],
   [.lit "backup"]]

/-- `HIGH_PRIORITY_KEYWORDS` (llm_service.py line 61). -/
def HIGH_PRIORITY_KEYWORDS : List (List Piece) :=
  [[.lit "no", .ws0, .lit "workaround"], [.lit "blocking"], [.lit "deadline"],
   [.lit "can\x27t", .ws0, .lit "access"], [.lit "cannot", .ws0, .lit "access"],
   [.lit "as", .ws0, .lit "soon", .ws0, .lit "as", .ws0, .lit "possible"],
   [.lit "critical", .ws0, .lit "deadline"]]

/-- `LOW_PRIORITY_KEYWORDS` (llm_service.py line 65). -/
def LOW_PRIORITY_KEYWORDS : List (List Piece) :=
  [[.lit "minor"], [.lit "cosmetic"], [.lit "not", .ws0, .lit "urgent"],
   [.lit "feature", .ws0, .lit "request"],
   [.lit "would", .ws0, .lit "be", .ws0, .lit "nice"],
   [.lit "small", .ws0, .lit "issue"]]

/-- Python `.lower()` on a string (ASCII). -/
def lowerString (s : String) : String :=
  (s.toList.map Char.toLower).asString

/-- Python truthiness check `not description or not description.strip()`:
true iff the string is empty or consists only of whitespace. -/
def is_blank (s : String) : Bool :=
  s.toList.all Char.isWhitespace

/-- `_suggested_priority_from_keywords` (llm_service.py lines 71-81):
critical tier first, then high, then low, else medium; empty string → medium. -/
def _suggested_priority_from_keywords (description : String) : String :=
  if description.toList.isEmpty then "medium"
  else if searchGroup CRITICAL_PRIORITY_KEYWORDS description then "critical"
  else if searchGroup HIGH_PRIORITY_KEYWORDS description then "high"
  else if searchGroup LOW_PRIORITY_KEYWORDS description then "low"
  else "medium"

/-- `_description_looks_technical` (llm_service.py lines 84-85). -/
def _description_looks_technical (description : String) : Bool :=
  !description.toList.isEmpty && searchGroup TECHNICAL_KEYWORDS description

/-- `_description_looks_account` (llm_service.py lines 88-89). -/
def _description_looks_account (description : String) : Bool :=
  !description.toList.isEmpty && searchGroup ACCOUNT_KEYWORDS description

/-- `_description_looks_billing` (llm_service.py lines 92-93). -/
def _description_looks_billing (description : String) : Bool :=
  !description.toList.isEmpty && searchGroup BILLING_KEYWORDS description

/-- `_description_looks_outage_or_system_down` (llm_service.py lines 96-98). -/
def _description_looks_outage_or_system_down (description : String) : Bool :=
  !description.toList.isEmpty && searchGroup OUTAGE_OR_DOWN_KEYWORDS description

/-- The dict `{'suggested_category': ..., 'suggested_priority': ...}` returned
by `classify_ticket`; the code keeps both values as strings. -/
structure ClassifyResult where
  suggested_category : String
  suggested_priority : String
deriving DecidableEq

/-- Outcome of `json.loads(text)` plus the two `data.get(...)` lookups:
either the parse raises (caught by the surrounding `except`), or it yields an
object whose `category` / `priority` fields may be missing (`None`). -/
inductive JsonOutcome
  | parseError
  | object (category priority : Option String)
deriving DecidableEq

/-- Outcome of the Gemini call: either the client raises an exception
(network error, timeout, bad client state — all caught by the `except`
block), or it returns a response whose `.text` (after `or ''` and `.strip()`
level emptiness is checked on the raw text) is `text`, and for which the
markdown-stripped body parses as `parse`. -/
inductive OracleOutcome
  | exn
  | response (text : String) (parse : JsonOutcome)
deriving DecidableEq

/-- `valid_categories` (llm_service.py line 147). -/
def VALID_CATEGORIES : List String := ["billing", "technical", "account", "general"]

/-- `valid_priorities` (llm_service.py line 148). -/
def VALID_PRIORITIES : List String := ["low", "medium", "high", "critical"]

/-- The keyword-only fallback executed when no API key is configured
(llm_service.py lines 112-122). -/
def no_key_fallback (description : String) : ClassifyResult :=
  let pri := _suggested_priority_from_keywords description
  if _description_looks_outage_or_system_down description then
    ⟨"technical", "critical"⟩
  else if _description_looks_account description then ⟨"account", pri⟩
  else if _description_looks_billing description then ⟨"billing", pri⟩
  else if _description_looks_technical description then ⟨"technical", pri⟩
  else ⟨"general", pri⟩

/-- The keyword-only fallback executed in the `except` handler when the oracle
call (or JSON parsing) raises (llm_service.py lines 173-182); the code
duplicates the lines of the no-key fallback verbatim. -/
def exn_fallback (description : String) : ClassifyResult :=
  let pri := _suggested_priority_from_keywords description
  if _description_looks_outage_or_system_down description then
    ⟨"technical", "critical"⟩
  else if _description_looks_account description then ⟨"account", pri⟩
  else if _description_looks_billing description then ⟨"billing", pri⟩
  else if _description_looks_technical description then ⟨"technical", pri⟩
  else ⟨"general", pri⟩

/-- The correction/override layer applied to a validated oracle answer
(llm_service.py lines 151-170). `category` and `priority` arrive already
lower-cased and inside the valid enumerations. -/
def correct_oracle_answer (description category priority : String) : ClassifyResult :=
  let category1 :=
    if category = "technical" then
      if _description_looks_account description &&
          !_description_looks_technical description then "account"
      else if _description_looks_billing description &&
          !_description_looks_technical description then "billing"
      else category
    else if category = "general" && _description_looks_technical description then
      "technical"
    else category
  let category2 :=
    if _description_looks_outage_or_system_down description then "technical"
    else category1
  let priority1 :=
    if priority = "medium" then
      let keyword_priority := _suggested_priority_from_keywords description
      if keyword_priority ≠ "medium" then keyword_priority else priority
    else priority
  let priority2 :=
    if _description_looks_outage_or_system_down description then "critical"
    else priority1
  ⟨category2, priority2⟩

/-- `classify_ticket` (llm_service.py lines 101-182). `api_key` is whether
`settings.GOOGLE_API_KEY` is configured and non-empty; `oracle` is the outcome
of the external Gemini call, which the function only consults on the oracle
path. Returns `none` exactly where the Python returns `None`. -/
def classify_ticket (api_key : Bool) (oracle : OracleOutcome)
    (description : String) : Option ClassifyResult :=
  if is_blank description then none
  else if _description_looks_outage_or_system_down description then
    some ⟨"technical", "critical"⟩
  else if !api_key then some (no_key_fallback description)
  else
    match oracle with
    | .exn => some (exn_fallback description)
    | .response text parse =>
        if is_blank text then none
        else
          match parse with
          | .parseError => some (exn_fallback description)
          | .object cat? pri? =>
              let category := lowerString (cat?.getD "")
              let priority := lowerString (pri?.getD "")
              if !VALID_CATEGORIES.contains category ||
                  !VALID_PRIORITIES.contains priority then none
              else some (correct_oracle_answer description category priority)

/-- Python `str.strip()`. -/
def pyStrip (s : String) : String :=
  (((s.toList.dropWhile Char.isWhitespace).reverse.dropWhile
      Char.isWhitespace).reverse).asString

/-- Responses the `ticket_classify` view can produce: a 200 with the two
suggestion fields (each possibly `null`), or a 400 from serializer
validation. -/
inductive HttpResponse
  | ok (suggested_category suggested_priority : Option String)
  | badRequest
deriving DecidableEq

/-- The `ticket_classify` view (views.py lines 88-99) combined with
`ClassifyRequestSerializer` (serializers.py lines 12-13). The serializer's
`CharField(required=True, allow_blank=False)` rejects a missing description
and a blank/whitespace-only one (DRF `trim_whitespace` is on by default, so a
whitespace-only value trims to blank and fails), and hands the view the
trimmed description; `body` is the request body's `description` field. -/
def ticket_classify (body : Option String) (api_key : Bool)
    (oracle : OracleOutcome) : HttpResponse :=
  match body with
  | none => .badRequest
  | some desc =>
      if desc.toList.all Char.isWhitespace then .badRequest
      else
        match classify_ticket api_key oracle (pyStrip desc) with
        | none => .ok none none
        | some r => .ok (some r.suggested_category) (some r.suggested_priority)

/-- An alternative is well-formed when it starts with a literal whose first
character is not whitespace; every alternative of every group above is. -/
def starts_with_nonws : List Piece → Bool
  | .lit s :: _ =>
      match s.toList with
      | c :: _ => !c.isWhitespace
      | [] => false
  | _ => false

/-- All alternatives of a group start with a non-whitespace literal. -/
def group_starts_nonws (g : List (List Piece)) : Bool :=
  g.all starts_with_nonws

/-- On the oracle path, the oracle outcomes that still yield a concrete
result: exceptions and JSON parse errors (absorbed by the keyword fallback)
and valid parsed answers; an empty response text or out-of-enumeration
values do not. -/
def oracle_outcome_yields_result (o : OracleOutcome) : Bool :=
  match o with
  | .exn => true
  | .response text parse =>
      if is_blank text then false
      else
        match parse with
        | .parseError => true
        | .object cat? pri? =>
            VALID_CATEGORIES.contains (lowerString (cat?.getD "")) &&
              VALID_PRIORITIES.contains (lowerString (pri?.getD ""))

/-- `ClassifyRequestSerializer` validity: the body carries a `description`
that is not blank after trimming. -/
def request_valid (body : Option String) : Bool :=
  match body with
  | none => false
  | some d => !(d.toList.all Char.isWhitespace)

/-! ### Sanity checks on concrete inputs -/

example : searchGroup OUTAGE_OR_DOWN_KEYWORDS "The system is down" = true := by decide
example : searchGroup OUTAGE_OR_DOWN_KEYWORDS "download" = false := by decide
example : searchGroup BILLING_KEYWORDS "I was charged twice" = true := by decide
example : searchGroup TECHNICAL_KEYWORDS "I was charged twice" = false := by decide
example : searchGroup HIGH_PRIORITY_KEYWORDS "I can\x27t access it" = true := by decide
example : classify_ticket true OracleOutcome.exn "I was charged twice" =
    some ⟨"billing", "medium"⟩ := by decide
example : classify_ticket false OracleOutcome.exn "The system is down" =
    some ⟨"technical", "critical"⟩ := by decide
example : classify_ticket true (OracleOutcome.response "" JsonOutcome.parseError)
    "hello there" = none := by decide
example : classify_ticket true
    (OracleOutcome.response "ok" (JsonOutcome.object (some "Widget") (some "medium")))
    "hello there" = none := by decide

/-! ### Helper lemmas -/

theorem altMatchesAt_ws_head (alt : List Piece) (ha : starts_with_nonws alt = true)
    (c : Char) (hc : c.isWhitespace = true) (rest : List Char) :
    altMatchesAt alt (c :: rest) = false := by
  cases alt with
  | nil => simp [starts_with_nonws] at ha
  | cons p ps =>
    cases p with
    | ws0 => simp [starts_with_nonws] at ha
    | ws1 => simp [starts_with_nonws] at ha
    | lit s =>
      cases hs : s.toList with
      | nil =>
        simp only [starts_with_nonws, hs] at ha
        exact absurd ha (by decide)
      | cons a t =>
        simp only [starts_with_nonws, hs, Bool.not_eq_true'] at ha
        have hca : ¬(c = a) := by
          intro h
          rw [← h] at ha
          rw [hc] at ha
          exact absurd ha (by decide)
        have htake : ¬((c :: rest).take (a :: t).length = a :: t) := by
          rw [List.length_cons, List.take_succ_cons]
          intro h
          exact hca (List.cons.injEq _ _ _ _ ▸ h).1
        have hm : matchPieces (Piece.lit s :: ps) (c :: rest) = none := by
          simp only [matchPieces, hs]
          rw [if_neg htake]
        simp [altMatchesAt, hm]

theorem searchAux_of_all_ws (g : List (List Piece)) (hg : group_starts_nonws g = true)
    (cs : List Char) (hall : cs.all Char.isWhitespace = true) (b : Bool) :
    searchAux g b cs = false := by
  induction cs generalizing b with
  | nil => rfl
  | cons c rest ih =>
    rw [List.all_cons, Bool.and_eq_true] at hall
    obtain ⟨hc, hrest⟩ := hall
    have hany : (g.any fun alt => altMatchesAt alt (c :: rest)) = false := by
      rw [List.any_eq_false]
      intro alt halt
      have hsw : starts_with_nonws alt = true := by
        have := List.all_eq_true.mp hg alt halt
        exact this
      simp [altMatchesAt_ws_head alt hsw c hc rest]
    simp only [searchAux, hany, Bool.and_false, Bool.false_or]
    exact ih hrest (!isWordChar c)

theorem isWhitespace_toLower (c : Char) (h : c.isWhitespace = true) :
    (Char.toLower c).isWhitespace = true := by
  have h4 : ((c = ' ' ∨ c = '\t') ∨ c = '\r') ∨ c = '\n' := by
    simpa [Char.isWhitespace] using h
  rcases h4 with ((h | h) | h) | h <;> subst h <;> decide

theorem searchGroup_of_blank (g : List (List Piece)) (hg : group_starts_nonws g = true)
    (d : String) (hd : is_blank d = true) : searchGroup g d = false := by
  unfold searchGroup
  apply searchAux_of_all_ws g hg
  rw [List.all_eq_true]
  intro x hx
  rw [List.mem_map] at hx
  obtain ⟨c, hc, rfl⟩ := hx
  exact isWhitespace_toLower c (List.all_eq_true.mp hd c hc)

theorem not_blank_of_outage (d : String)
    (h : _description_looks_outage_or_system_down d = true) : is_blank d = false := by
  by_contra hb
  rw [Bool.not_eq_false] at hb
  have hs := searchGroup_of_blank OUTAGE_OR_DOWN_KEYWORDS (by decide) d hb
  rw [_description_looks_outage_or_system_down, hs, Bool.and_false] at h
  exact absurd h (by decide)

theorem searchGroup_of_empty (g : List (List Piece)) (d : String)
    (hd : d.toList.isEmpty = true) : searchGroup g d = false := by
  unfold searchGroup
  rw [List.isEmpty_iff] at hd
  rw [hd]
  rfl

/-- The two verbatim-duplicated keyword fallbacks (no-key path and `except`
handler) agree. -/
theorem fallbacks_eq (d : String) : exn_fallback d = no_key_fallback d := rfl

theorem data_ne_nil_of_searchGroup (g : List (List Piece)) (d : String)
    (h : searchGroup g d = true) : ¬d.data = [] := by
  intro h0
  rw [searchGroup_of_empty g d (by rw [List.isEmpty_iff]; exact h0)] at h
  exact absurd h (by decide)

theorem kp_mem (d : String) :
    VALID_PRIORITIES.contains (_suggested_priority_from_keywords d) = true := by
  unfold _suggested_priority_from_keywords
  split_ifs <;> decide

theorem no_key_fallback_mem (d : String) :
    VALID_CATEGORIES.contains (no_key_fallback d).suggested_category = true ∧
    VALID_PRIORITIES.contains (no_key_fallback d).suggested_priority = true := by
  unfold no_key_fallback
  dsimp only
  split_ifs <;> dsimp only <;> first
    | exact ⟨by decide, by decide⟩
    | exact ⟨by decide, kp_mem d⟩

theorem correct_oracle_answer_mem (d c p : String)
    (hc : VALID_CATEGORIES.contains c = true)
    (hp : VALID_PRIORITIES.contains p = true) :
    VALID_CATEGORIES.contains (correct_oracle_answer d c p).suggested_category = true ∧
    VALID_PRIORITIES.contains (correct_oracle_answer d c p).suggested_priority = true := by
  unfold correct_oracle_answer
  dsimp only
  constructor
  · split_ifs <;> first | decide | exact hc
  · split_ifs <;> first | decide | exact hp | exact kp_mem d

/-! ### Claims -/

/-- C2: for every description matching an outage/down term, `classify_ticket`
returns exactly (technical, critical), regardless of whether an API key is
configured and regardless of the oracle outcome or any other keyword
matches. -/
theorem classify_outage_short_circuits (d : String) (api_key : Bool)
    (oracle : OracleOutcome)
    (h : _description_looks_outage_or_system_down d = true) :
    classify_ticket api_key oracle d = some ⟨"technical", "critical"⟩ := by
  simp [classify_ticket, not_blank_of_outage d h, h]

theorem classify_outage_short_circuits_witness :
    classify_ticket false OracleOutcome.exn "the system is down" =
      some ⟨"technical", "critical"⟩ :=
  classify_outage_short_circuits "the system is down" false OracleOutcome.exn
    (by decide)

/-- C3: for every blank or whitespace-only description, `classify_ticket`
returns `none` immediately, for every API-key configuration and every oracle
outcome — in particular the result never depends on the oracle, so no oracle
call is needed or attempted. -/
theorem classify_blank_returns_absent (d : String) (api_key : Bool)
    (oracle : OracleOutcome) (h : is_blank d = true) :
    classify_ticket api_key oracle d = none := by
  simp [classify_ticket, h]

theorem classify_blank_returns_absent_witness :
    classify_ticket true OracleOutcome.exn "   " = none :=
  classify_blank_returns_absent "   " true OracleOutcome.exn (by decide)

/-- C8: for every description, the result produced when the oracle call
raises is identical to the result of the no-oracle-key fallback path, and no
exception is propagated (the function is total and returns a value). -/
theorem classify_exn_equals_no_key (d : String) (oracle : OracleOutcome) :
    classify_ticket true OracleOutcome.exn d = classify_ticket false oracle d := by
  unfold classify_ticket
  by_cases hb : is_blank d = true
  · simp [hb]
  · rw [Bool.not_eq_true] at hb
    by_cases ho : _description_looks_outage_or_system_down d = true
    · simp [hb, ho]
    · rw [Bool.not_eq_true] at ho
      simp [hb, ho, fallbacks_eq]

/-- C5: for every non-blank description not matching outage terms, with no
API key configured, `classify_ticket` returns the keyword-tier priority
paired with the first matching category in the order account, billing,
technical, general (exactly one category, since it is a function value). -/
theorem classify_no_key_precedence (d : String) (oracle : OracleOutcome)
    (hb : is_blank d = false)
    (ho : _description_looks_outage_or_system_down d = false) :
    classify_ticket false oracle d =
      some ⟨if _description_looks_account d then "account"
            else if _description_looks_billing d then "billing"
            else if _description_looks_technical d then "technical"
            else "general",
            _suggested_priority_from_keywords d⟩ := by
  simp only [classify_ticket, no_key_fallback, hb, ho]
  simp only [Bool.false_eq_true, if_false, Bool.not_false, if_true]
  split_ifs <;> rfl

theorem classify_no_key_precedence_witness :
    classify_ticket false OracleOutcome.exn "I forgot my password" =
      some ⟨"account", "medium"⟩ :=
  (classify_no_key_precedence "I forgot my password" OracleOutcome.exn
    (by decide) (by decide)).trans (by decide)

/-- C6: `_suggested_priority_from_keywords` is total and deterministic — it
always returns exactly one of critical, high, low, medium, checking the
critical tier first, then high, then low, defaulting to medium. -/
theorem keyword_priority_tiers (d : String) :
    (_suggested_priority_from_keywords d = "critical" ∨
     _suggested_priority_from_keywords d = "high" ∨
     _suggested_priority_from_keywords d = "low" ∨
     _suggested_priority_from_keywords d = "medium") ∧
    (searchGroup CRITICAL_PRIORITY_KEYWORDS d = true →
      _suggested_priority_from_keywords d = "critical") ∧
    (searchGroup CRITICAL_PRIORITY_KEYWORDS d = false →
      searchGroup HIGH_PRIORITY_KEYWORDS d = true →
      _suggested_priority_from_keywords d = "high") ∧
    (searchGroup CRITICAL_PRIORITY_KEYWORDS d = false →
      searchGroup HIGH_PRIORITY_KEYWORDS d = false →
      searchGroup LOW_PRIORITY_KEYWORDS d = true →
      _suggested_priority_from_keywords d = "low") ∧
    (searchGroup CRITICAL_PRIORITY_KEYWORDS d = false →
      searchGroup HIGH_PRIORITY_KEYWORDS d = false →
      searchGroup LOW_PRIORITY_KEYWORDS d = false →
      _suggested_priority_from_keywords d = "medium") := by
  refine ⟨?_, ?_, ?_, ?_, ?_⟩
  · unfold _suggested_priority_from_keywords
    split_ifs <;> simp
  · intro hc
    have hne : ¬d.data = [] := data_ne_nil_of_searchGroup _ d hc
    simp [_suggested_priority_from_keywords, hne, hc]
  · intro hc hh
    have hne : ¬d.data = [] := data_ne_nil_of_searchGroup _ d hh
    simp [_suggested_priority_from_keywords, hne, hc, hh]
  · intro hc hh hl
    have hne : ¬d.data = [] := data_ne_nil_of_searchGroup _ d hl
    simp [_suggested_priority_from_keywords, hne, hc, hh, hl]
  · intro hc hh hl
    by_cases he : d.data = []
    · simp [_suggested_priority_from_keywords, he]
    · simp [_suggested_priority_from_keywords, he, hc, hh, hl]

theorem keyword_priority_tiers_witness :
    _suggested_priority_from_keywords "urgent" = "critical" ∧
    _suggested_priority_from_keywords "blocking" = "high" ∧
    _suggested_priority_from_keywords "minor issue" = "low" ∧
    _suggested_priority_from_keywords "hello" = "medium" :=
  ⟨(keyword_priority_tiers "urgent").2.1 (by decide),
   (keyword_priority_tiers "blocking").2.2.1 (by decide) (by decide),
   (keyword_priority_tiers "minor issue").2.2.2.1 (by decide) (by decide)
     (by decide),
   (keyword_priority_tiers "hello").2.2.2.2 (by decide) (by decide) (by decide)⟩

/-- C4: whenever `classify_ticket` returns a result, its category is one of
billing, technical, account, general and its priority one of low, medium,
high, critical — for every description, API-key configuration, and oracle
outcome; otherwise the whole result is `none`. -/
theorem classify_result_in_enumerations (api_key : Bool) (oracle : OracleOutcome)
    (d : String) (r : ClassifyResult)
    (h : classify_ticket api_key oracle d = some r) :
    VALID_CATEGORIES.contains r.suggested_category = true ∧
    VALID_PRIORITIES.contains r.suggested_priority = true := by
  unfold classify_ticket at h
  split at h
  · exact absurd h (by simp)
  · split at h
    · rw [Option.some.injEq] at h
      subst h
      exact ⟨by decide, by decide⟩
    · split at h
      · rw [Option.some.injEq] at h
        subst h
        exact no_key_fallback_mem d
      · split at h
        · rw [Option.some.injEq] at h
          subst h
          rw [fallbacks_eq]
          exact no_key_fallback_mem d
        · rename_i text parse
          split at h
          · exact absurd h (by simp)
          · split at h
            · rw [Option.some.injEq] at h
              subst h
              rw [fallbacks_eq]
              exact no_key_fallback_mem d
            · dsimp only at h
              split at h
              · exact absurd h (by simp)
              · rename_i hcond
                rw [Option.some.injEq] at h
                subst h
                rw [Bool.or_eq_true, Bool.not_eq_true', Bool.not_eq_true'] at hcond
                push_neg at hcond
                rcases hcond with ⟨h1, h2⟩
                exact correct_oracle_answer_mem d _ _ (by simpa using h1)
                  (by simpa using h2)

theorem classify_result_in_enumerations_witness :
    VALID_CATEGORIES.contains
      (ClassifyResult.mk "general" "medium").suggested_category = true ∧
    VALID_PRIORITIES.contains
      (ClassifyResult.mk "general" "medium").suggested_priority = true :=
  classify_result_in_enumerations true OracleOutcome.exn "hello"
    ⟨"general", "medium"⟩ (by decide)

/-- C7: when the oracle validly answers (technical, medium) for the
description "I was charged twice for my subscription", the correction layer
rewrites the category to billing (a billing keyword matches, no technical
keyword does) and keeps priority medium (the keyword tiers also yield
medium): the final result is (billing, medium). -/
theorem classify_corrects_billing_example :
    classify_ticket true
      (OracleOutcome.response
        "\x7b\"category\": \"technical\", \"priority\": \"medium\"\x7d"
        (JsonOutcome.object (some "technical") (some "medium")))
      "I was charged twice for my subscription" =
      some ⟨"billing", "medium"⟩ := by decide

/-- C1 fails on the code: for the non-blank description "hello there", an
empty oracle response makes `classify_ticket` return `none` (line 137-138 of
llm_service.py: `if not text: return None`), and an out-of-enumeration value
does too (lines 149-150), instead of being resolved by the keyword
fallback. -/
theorem classify_empty_response_counterexample :
    is_blank "hello there" = false ∧
    classify_ticket true (OracleOutcome.response "" JsonOutcome.parseError)
      "hello there" = none ∧
    classify_ticket true
      (OracleOutcome.response "ok"
        (JsonOutcome.object (some "gadget") (some "medium")))
      "hello there" = none := by decide

/-- C1 (amended): for every non-blank description, `classify_ticket` returns
a concrete result exactly when the description matches outage terms, the
oracle raises (transport failure or JSON parse failure — both absorbed by the
keyword fallback), or the oracle answer parses with category and priority
inside the valid enumerations; an empty oracle response or an
out-of-enumeration value yields `none`. -/
theorem classify_absent_iff_fault_kind (d : String) (o : OracleOutcome)
    (hb : is_blank d = false) :
    (classify_ticket true o d).isSome =
      (_description_looks_outage_or_system_down d ||
        oracle_outcome_yields_result o) := by
  unfold classify_ticket oracle_outcome_yields_result
  by_cases ho : _description_looks_outage_or_system_down d = true
  · simp [hb, ho]
  · rw [Bool.not_eq_true] at ho
    cases o with
    | exn => simp [hb, ho]
    | response text parse =>
      by_cases hbt : is_blank text = true
      · simp [hb, ho, hbt]
      · rw [Bool.not_eq_true] at hbt
        cases parse with
        | parseError => simp [hb, ho, hbt]
        | object cat? pri? =>
          by_cases hca : lowerString (cat?.getD "") ∈ VALID_CATEGORIES <;>
            by_cases hcp : lowerString (pri?.getD "") ∈ VALID_PRIORITIES <;>
              simp [hb, ho, hbt, hca, hcp]

theorem classify_absent_iff_fault_kind_witness :
    (classify_ticket true OracleOutcome.exn "hello").isSome =
      (_description_looks_outage_or_system_down "hello" ||
        oracle_outcome_yields_result OracleOutcome.exn) :=
  classify_absent_iff_fault_kind "hello" OracleOutcome.exn (by decide)

/-- C9 fails as stated: a request whose `description` is blank (here the
empty string) is rejected by `ClassifyRequestSerializer` and receives a 400,
not a 200-style success. -/
theorem classify_view_blank_body_counterexample :
    ticket_classify (some "") true OracleOutcome.exn =
      HttpResponse.badRequest := by decide

/-- C9 (amended): every request that passes body validation (a non-blank
`description` field is present) receives a 200-style success carrying either
concrete suggestions or explicit nulls for both fields — for every API-key
configuration and every oracle outcome, so no oracle failure ever surfaces as
an error status. -/
theorem classify_view_valid_request_ok (body : Option String) (api_key : Bool)
    (oracle : OracleOutcome) (h : request_valid body = true) :
    ticket_classify body api_key oracle = HttpResponse.ok none none ∨
    ∃ c p, ticket_classify body api_key oracle =
      HttpResponse.ok (some c) (some p) := by
  cases body with
  | none => exact absurd h (by decide)
  | some d =>
    simp only [request_valid, Bool.not_eq_true'] at h
    unfold ticket_classify
    dsimp only
    rw [h]
    cases hr : classify_ticket api_key oracle (pyStrip d) with
    | none => left; simp [hr]
    | some r =>
        right
        exact ⟨r.suggested_category, r.suggested_priority, by simp [hr]⟩

theorem classify_view_valid_request_ok_witness :
    ticket_classify (some "hello") true OracleOutcome.exn =
      HttpResponse.ok none none ∨
    ∃ c p, ticket_classify (some "hello") true OracleOutcome.exn =
      HttpResponse.ok (some c) (some p) :=
  classify_view_valid_request_ok (some "hello") true OracleOutcome.exn
    (by decide)

/-- C10: the correction layer is one-directional — when the description does
not match outage terms, an oracle category of account or billing is returned
unchanged, and an oracle priority of low, high, or critical is returned
unchanged; only category technical/general and priority medium can be
rewritten. -/
theorem correction_preserves_trusted_values (d c p : String)
    (ho : _description_looks_outage_or_system_down d = false) :
    ((c = "account" ∨ c = "billing") →
      (correct_oracle_answer d c p).suggested_category = c) ∧
    ((p = "low" ∨ p = "high" ∨ p = "critical") →
      (correct_oracle_answer d c p).suggested_priority = p) := by
  constructor
  · rintro (rfl | rfl) <;> simp [correct_oracle_answer, ho]
  · rintro (rfl | rfl | rfl) <;> simp [correct_oracle_answer, ho]

theorem correction_preserves_trusted_values_witness :
    (correct_oracle_answer "hello" "account" "low").suggested_category =
      "account" ∧
    (correct_oracle_answer "hello" "account" "low").suggested_priority =
      "low" :=
  ⟨(correction_preserves_trusted_values "hello" "account" "low"
      (by decide)).1 (Or.inl rfl),
   (correction_preserves_trusted_values "hello" "account" "low"
      (by decide)).2 (Or.inl rfl)⟩
